/-
Verification of the mun code-generation backend
(crates/mun_codegen/src/code_gen.rs) against its natural-language
specification.

The Rust source is shallowly embedded: the LLVM code module is a record of
globals, mutation is explicit state passing, fallible operations return
Except, and the external LLVM backend / filesystem / linker operations are
abstracted as an environment of functions threaded through the embedded
orchestrator.  A potential Rust panic (an `unwrap` on `None`) is modelled
as a distinguished outcome.
-/
import Mathlib

namespace Mun

/-! ## Path model

`hir::RelativePathBuf` (the `relative-path` crate) is modelled by its parsed
component sequence: splitting on the separator yields a list of component
strings in which empty components never occur; a component equal to "." is a
current-dir component and ".." a parent-dir component, everything else a
normal component.  `RelativePath::file_name` returns the last component when
it is a normal component and `None` otherwise (also for the empty path). -/

abbrev RelPath : Type := List String

/-- The `relative-path` crate's `file_name`: the final component when it is a
normal component, `none` when the path is empty or ends in a current-dir or
parent-dir component. -/
def RelPath.fileName (p : RelPath) : Option String :=
  match p.getLast? with
  | none => none
  | some c => if c = "" ∨ c = "." ∨ c = ".." then none else some c

/-- The `relative-path` crate's `as_str`: components joined with "/". -/
def RelPath.asStr (p : RelPath) : String :=
  String.intercalate "/" p

/-- Split a component at its last dot character: `some (before, after)` with
the dot excluded from both parts, `none` when the component holds no dot.
This is `rsplitn(2, '.')` from the Rust standard library's path code. -/
def splitLastDot : List Char → Option (List Char × List Char)
  | [] => none
  | c :: cs =>
    match splitLastDot cs with
    | some (b, a) => some (c :: b, a)
    | none => if c = '.' then some ([], cs) else none

/-- The Rust standard library's `split_file_at_dot` on one file-name
component: result is `(stem part, extension part)`.  A literal ".." and a
name whose only dot is leading yield no extension. -/
def splitFileAtDot (file : List Char) : Option (List Char) × Option (List Char) :=
  if file = ['.', '.'] then (some file, none)
  else
    match splitLastDot file with
    | none => (none, some file)
    | some (b, a) => if b = [] then (some file, none) else (some b, some a)

/-- `Path::file_stem` restricted to a single file-name component. -/
def fileStemL (file : List Char) : Option (List Char) :=
  ((splitFileAtDot file).1).or (splitFileAtDot file).2

/-- `Path::extension` restricted to a single file-name component. -/
def extensionL (file : List Char) : Option (List Char) :=
  ((splitFileAtDot file).1).bind (fun _ => (splitFileAtDot file).2)

/-- `Path::with_extension` on a path consisting of the single component
`name`: keep the file stem and append a dot and the new extension (the
standard library's `set_extension`; a path whose `file_stem` is `None`,
i.e. "", "." or "..", is left unchanged). -/
def withExtensionL (name ext : List Char) : List Char :=
  if name = [] ∨ name = ['.'] ∨ name = ['.', '.'] then name
  else
    match fileStemL name with
    | none => name
    | some stem => if ext = [] then stem else stem ++ '.' :: ext

/-- String-level wrapper for `Path::with_extension` on one component. -/
def withExtensionS (name ext : String) : String :=
  String.mk (withExtensionL name.data ext.data)

/-- A `std::path` path: an absolute-root flag plus the component list.
`join` with a relative single-component right-hand side appends. -/
structure SysPath where
  absolute : Bool
  components : List String
deriving DecidableEq, Repr

/-- `Path::join` with a (relative, single-component) file name. -/
def SysPath.join (p : SysPath) (name : String) : SysPath :=
  { p with components := p.components ++ [name] }

/-! ## LLVM value model

Only the shapes the emitter produces are represented.  Pointers are either a
typed constant null or a pointer to a global, identified by its position in
the module's global list.  All address spaces in the source are
`AddressSpace::Const`; `ptrConst` records one such indirection. -/

inductive LLVMType where
  | i8 : LLVMType
  | i16 : LLVMType
  | structTy : Nat → LLVMType
  | ptrConst : LLVMType → LLVMType
deriving DecidableEq, Repr

/-- An `inkwell` `StructType`, identified opaquely. -/
abbrev StructTy : Type := Nat

inductive Ptr where
  /-- `const_null()` of the given pointer type. -/
  | null : LLVMType → Ptr
  /-- `GlobalValue::as_pointer_value` of the global at this index. -/
  | global : Nat → Ptr
deriving DecidableEq, Repr

inductive Value where
  /-- `Context::const_string(s, null_terminated)`. -/
  | constString : String → Bool → Value
  /-- `const_array` of pointers with the given element type. -/
  | ptrArray : LLVMType → List Ptr → Value
  /-- `const_array` of i16 constants (`const_int(v, false)` truncates). -/
  | i16Array : List Nat → Value
deriving DecidableEq, Repr

inductive LinkageKind where
  | privateLinkage : LinkageKind
  | externalLinkage : LinkageKind
deriving DecidableEq, Repr

inductive UnnamedAddr where
  | none : UnnamedAddr
  | localAddr : UnnamedAddr
  | globalAddr : UnnamedAddr
deriving DecidableEq, Repr

structure Global where
  name : String
  linkage : LinkageKind
  isConstant : Bool
  unnamedAddr : UnnamedAddr
  initValue : Value
deriving DecidableEq, Repr

/-- An `inkwell` `Module`: its name and ordered list of globals. -/
structure Module where
  name : String
  globals : List Global
deriving DecidableEq, Repr

/-- `Context::create_module(name)`: a fresh, empty module. -/
def createModule (name : String) : Module :=
  { name := name, globals := [] }

/-! ## Constant/Global emitter (code_gen.rs lines 171-245) -/

/-- `gen_global`: add one global initialized to `value`, with private
linkage, marked constant and with global unnamed-address; returns the new
global's index as the handle. -/
def gen_global (m : Module) (value : Value) (name : String) : Nat × Module :=
  let g : Global :=
    { name := name
      linkage := LinkageKind.privateLinkage
      isConstant := true
      unnamedAddr := UnnamedAddr.globalAddr
      initValue := value }
  (m.globals.length, { m with globals := m.globals ++ [g] })

/-- `intern_string`: a null-terminated constant-string global; returns a
pointer to it. -/
def intern_string (m : Module) (string : String) (name : String) : Ptr × Module :=
  let value := Value.constString string true
  let (g, m) := gen_global m value name
  (Ptr.global g, m)

/-- The sequential interning of a list of strings
(`strings.map(|s| intern_string(module, &s, name)).collect()`). -/
def internStrings (m : Module) (strings : List String) (name : String) :
    List Ptr × Module :=
  match strings with
  | [] => ([], m)
  | s :: rest =>
    let (p, m) := intern_string m s name
    let (ps, m) := internStrings m rest name
    (p :: ps, m)

/-- The global array's element type in `gen_string_array`:
`i8_type().ptr_type(AddressSpace::Const)`. -/
def strType : LLVMType := LLVMType.ptrConst LLVMType.i8

/-- `gen_string_array`: empty input yields a typed constant null and leaves
the module untouched; otherwise intern every string and emit one global
holding the pointer array (with the empty symbol name). -/
def gen_string_array (m : Module) (strings : List String) (name : String) :
    Ptr × Module :=
  match strings with
  | [] => (Ptr.null (LLVMType.ptrConst strType), m)
  | _ :: _ =>
    let (ptrs, m) := internStrings m strings name
    let (g, m) := gen_global m (Value.ptrArray strType ptrs) ""
    (Ptr.global g, m)

/-- `gen_struct_ptr_array`: empty input yields a typed constant null and
leaves the module untouched; otherwise emit one global holding the pointer
array. -/
def gen_struct_ptr_array (m : Module) (irType : StructTy) (ptrs : List Ptr)
    (name : String) : Ptr × Module :=
  match ptrs with
  | [] =>
    (Ptr.null (LLVMType.ptrConst (LLVMType.ptrConst (LLVMType.structTy irType))), m)
  | _ :: _ =>
    let (g, m) :=
      gen_global m (Value.ptrArray (LLVMType.ptrConst (LLVMType.structTy irType)) ptrs) name
    (Ptr.global g, m)

/-- `gen_u16_array`: empty input yields a typed constant null and leaves the
module untouched; otherwise emit one global holding the i16 array
(`const_int(i, false)` keeps the low 16 bits). -/
def gen_u16_array (m : Module) (integers : List Nat) : Ptr × Module :=
  match integers with
  | [] => (Ptr.null (LLVMType.ptrConst LLVMType.i16), m)
  | _ :: _ =>
    let vals := integers.map (fun i => i % 65536)
    let (g, m) := gen_global m (Value.i16Array vals) ""
    (Ptr.global g, m)

/-! ## Database, target and backend environment

`IrDatabase` supplies the target description, optimization level, per-file
relative path and lowered IR; the LLVM backend, the filesystem and the
platform linker are external, and enter the embedding as an environment of
abstract operations consulted by the orchestrator. -/

abbrev FileId : Type := Nat

/-- `mun_target`-style target description read from the database. -/
structure Target where
  llvmTarget : String
  cpu : String
  features : String
  dataLayout : String
deriving DecidableEq, Repr

/-- `inkwell::OptimizationLevel`. -/
inductive OptimizationLevel where
  | none : OptimizationLevel
  | less : OptimizationLevel
  | default : OptimizationLevel
  | aggressive : OptimizationLevel
deriving DecidableEq, Repr

inductive RelocMode where
  | pic : RelocMode
deriving DecidableEq, Repr

inductive CodeModel where
  | default : CodeModel
deriving DecidableEq, Repr

inductive FileType where
  | object : FileType
  | assembly : FileType
deriving DecidableEq, Repr

/-- The lowered IR for one file (`db.module_ir`): function list, dispatch
table and type table, opaque to this core and only handed to the reflection
generator. -/
structure ModuleIr where
  functions : Nat
  dispatchTable : Nat
  typeTable : Nat
deriving DecidableEq, Repr

/-- The read side of the `IrDatabase`. -/
structure Db where
  target : Target
  optimizationLvl : OptimizationLevel
  fileRelativePath : FileId → RelPath
  moduleIr : FileId → ModuleIr

/-- Mutable state this core can observe and change: the database's
registered-module slot (`db.set_module`) and the process-local temporary
files created so far, each with its current byte content.  (A
`NamedTempFile` is deleted when dropped; the list records every file this
core created and its last written content.) -/
structure CompState where
  moduleSlot : Option Module
  tempFiles : List (List Nat)
deriving DecidableEq, Repr

abbrev LinkerError : Type := String

abbrev IOError : Type := String

/-- `CodeGenerationError` (code_gen.rs lines 23-35). -/
inductive CodeGenerationError where
  | linkerError : LinkerError → CodeGenerationError
  | unknownTargetTriple : String → CodeGenerationError
  | couldNotCreateTargetMachine : CodeGenerationError
  | couldNotCreateObjectFile : IOError → CodeGenerationError
  | codeGenerationError : String → CodeGenerationError
deriving DecidableEq, Repr

/-- Opaque handle to an `inkwell::targets::Target`. -/
abbrev LLVMTarget : Type := Nat

/-- Opaque handle to an `inkwell::targets::TargetMachine`. -/
abbrev TargetMachine : Type := Nat

/-- The external operations the orchestrator calls: the LLVM backend
(target lookup, machine construction, pass pipeline, object emission), the
reflection generator in the sibling `symbols` module, the filesystem
(temporary files) and the platform linker.  Each is an abstract function so
the theorems quantify over every possible behaviour of the externals.

`genReflectionIr` is modelled from the spec: `symbols::gen_reflection_ir`
lives in the sibling `symbols.rs`, absent here; per the spec it augments the
live module with reflection globals and a `get_info` entry point, a pure
module-to-module transformation of the IR's function list, dispatch table
and type table.

`writeFile` models `std::io::Write::write` on the temporary file: it may
report fewer bytes written than the buffer holds (a partial write), in which
case only that prefix reaches the file. -/
structure Env where
  fromTriple : String → Except String LLVMTarget
  createTargetMachine : LLVMTarget → String → String → String →
    OptimizationLevel → RelocMode → CodeModel → Option TargetMachine
  genReflectionIr : Module → Nat → Nat → Nat → Module
  optimizePasses : OptimizationLevel → Module → Module
  writeToMemoryBuffer : TargetMachine → Module → FileType → Except String (List Nat)
  createTempFileResult : Except IOError Unit
  writeFile : List Nat → Except IOError Nat
  addObject : Nat → Option LinkerError
  buildSharedObject : SysPath → Option LinkerError
  linkerFinalizeResult : Option LinkerError

/-- The per-file compilation unit (code_gen.rs lines 43-49). -/
structure ModuleBuilder where
  fileId : FileId
  llvmTarget : LLVMTarget
  targetMachine : TargetMachine
  assemblyModule : Module

/-! ## ModuleBuilder construction (code_gen.rs lines 53-92) -/

/-- `ModuleBuilder::new`: read the target description, create a fresh module
named after the file's relative path, resolve the triple (failing with
`UnknownTargetTriple`), build the target machine at the database's
optimization level (failing with `CouldNotCreateTargetMachine`), and only
then register the module into the database's slot.  The one-time idempotent
`Target::initialize_x86` call touches process-wide LLVM state only and is
not observable through `CompState`.  Returns the final observable state on
every path. -/
def ModuleBuilder.new (env : Env) (db : Db) (st : CompState) (fileId : FileId) :
    Except CodeGenerationError ModuleBuilder × CompState :=
  let target := db.target
  let assemblyModule := createModule (db.fileRelativePath fileId).asStr
  match env.fromTriple target.llvmTarget with
  | Except.error e => (Except.error (CodeGenerationError.unknownTargetTriple e), st)
  | Except.ok llvmTarget =>
    match env.createTargetMachine llvmTarget target.llvmTarget target.cpu
        target.features db.optimizationLvl RelocMode.pic CodeModel.default with
    | Option.none => (Except.error CodeGenerationError.couldNotCreateTargetMachine, st)
    | Option.some targetMachine =>
      let st := { st with moduleSlot := some assemblyModule }
      (Except.ok
        { fileId := fileId
          llvmTarget := llvmTarget
          targetMachine := targetMachine
          assemblyModule := assemblyModule }, st)

/-! ## Output path computation (code_gen.rs lines 144-158) -/

/-- `assembly_output_path`: take the file's relative path, `unwrap` its file
name (modelled as `none` = panic when absent), replace the extension with
"munlib", and prepend the output directory when one is given. -/
def assembly_output_path (db : Db) (fileId : FileId) (outDir : Option SysPath) :
    Option SysPath :=
  let relativePath := db.fileRelativePath fileId
  match relativePath.fileName with
  | Option.none => none
  | Option.some originalFilename =>
    let outputFileName := withExtensionS originalFilename "munlib"
    some (match outDir with
          | some d => d.join outputFileName
          | none => { absolute := false, components := [outputFileName] })

/-! ## Finalization (code_gen.rs lines 95-142) -/

/-- `optimize_module` (code_gen.rs lines 160-169): build the standard pass
pipeline for the given optimization level and run it once over the whole
module; the passes themselves belong to the backend, so the transformation
is the environment's. -/
def optimize_module (env : Env) (module : Module)
    (optimization_lvl : OptimizationLevel) : Module :=
  env.optimizePasses optimization_lvl module

/-- The observable steps `finalize` performs, in the order it performs
them.  Module-structure mutation happens only in `genReflectionIr` and
`optimizeModule`; the remaining events read the module or drive the
filesystem and linker. -/
inductive Event where
  | fetchIR : Event
  | genReflectionIr : Event
  | optimizeModule : Event
  | emitObject : Event
  | createTempFile : Event
  | writeTempFile : Event
  | linkerCreate : Event
  | linkerAddObject : Event
  | linkerBuildSharedObject : Event
  | linkerFinalize : Event
deriving DecidableEq, Repr

/-- The outcome of a `finalize` run: a returned artifact path, a returned
error value, or a Rust panic. -/
inductive Outcome where
  | ok : SysPath → Outcome
  | err : CodeGenerationError → Outcome
  | panicked : Outcome
deriving DecidableEq, Repr

/-- `ModuleBuilder::finalize`: fetch the lowered IR, run the reflection
generator over the live module, optimize, emit the object into memory,
persist it to a fresh temporary file, then create a linker for the target,
add the object, compute the output path (`unwrap` panic modelled as
`Outcome.panicked`), build the shared object and finalize the linker.  Each
`?` in the source is an early error return.  Returns the outcome, the final
observable state and the trace of steps performed. -/
def ModuleBuilder.finalize (env : Env) (db : Db) (b : ModuleBuilder)
    (st : CompState) (outDir : Option SysPath) :
    Outcome × CompState × List Event :=
  let module := db.moduleIr b.fileId
  let m1 := env.genReflectionIr b.assemblyModule module.functions
    module.dispatchTable module.typeTable
  let m2 := optimize_module env m1 db.optimizationLvl
  let tr := [Event.fetchIR, Event.genReflectionIr, Event.optimizeModule,
    Event.emitObject]
  match env.writeToMemoryBuffer b.targetMachine m2 FileType.object with
  | Except.error e =>
    (Outcome.err (CodeGenerationError.codeGenerationError e), st, tr)
  | Except.ok obj =>
    let tr := tr ++ [Event.createTempFile]
    match env.createTempFileResult with
    | Except.error e =>
      (Outcome.err (CodeGenerationError.couldNotCreateObjectFile e), st, tr)
    | Except.ok _ =>
      let fileIdx := st.tempFiles.length
      let st := { st with tempFiles := st.tempFiles ++ [[]] }
      let tr := tr ++ [Event.writeTempFile]
      match env.writeFile obj with
      | Except.error e =>
        (Outcome.err (CodeGenerationError.couldNotCreateObjectFile e), st, tr)
      | Except.ok n =>
        let st := { st with tempFiles := st.tempFiles.set fileIdx (obj.take n) }
        let tr := tr ++ [Event.linkerCreate, Event.linkerAddObject]
        match env.addObject fileIdx with
        | Option.some e => (Outcome.err (CodeGenerationError.linkerError e), st, tr)
        | Option.none =>
          match assembly_output_path db b.fileId outDir with
          | Option.none => (Outcome.panicked, st, tr)
          | Option.some outputPath =>
            let tr := tr ++ [Event.linkerBuildSharedObject]
            match env.buildSharedObject outputPath with
            | Option.some e =>
              (Outcome.err (CodeGenerationError.linkerError e), st, tr)
            | Option.none =>
              let tr := tr ++ [Event.linkerFinalize]
              match env.linkerFinalizeResult with
              | Option.some e =>
                (Outcome.err (CodeGenerationError.linkerError e), st, tr)
              | Option.none => (Outcome.ok outputPath, st, tr)

/-! ## Derived definitions and concrete fixtures -/

/-- The constant-string global `intern_string` creates. -/
def strGlobal (s name : String) : Global :=
  { name := name
    linkage := LinkageKind.privateLinkage
    isConstant := true
    unnamedAddr := UnnamedAddr.globalAddr
    initValue := Value.constString s true }

/-- The module `finalize` hands to the object emitter: the builder's live
module after reflection generation and optimization. -/
def optimizedModule (env : Env) (db : Db) (b : ModuleBuilder) : Module :=
  optimize_module env
    (env.genReflectionIr b.assemblyModule (db.moduleIr b.fileId).functions
      (db.moduleIr b.fileId).dispatchTable (db.moduleIr b.fileId).typeTable)
    db.optimizationLvl

/-- A concrete database: one file at relative path "foo/bar.src". -/
def dbFix : Db :=
  { target :=
      { llvmTarget := "x86_64-unknown-linux-gnu", cpu := "", features := ""
        dataLayout := "" }
    optimizationLvl := OptimizationLevel.default
    fileRelativePath := fun _ => ["foo", "bar.src"]
    moduleIr := fun _ => { functions := 0, dispatchTable := 0, typeTable := 0 } }

/-- A concrete database whose file has the empty relative path. -/
def dbEmptyPath : Db :=
  { dbFix with fileRelativePath := fun _ => [] }

/-- A concrete environment in which every external operation succeeds: the
emitted object buffer is `[7, 9]` and the file write reports the full
length. -/
def envAllOk : Env :=
  { fromTriple := fun _ => Except.ok 0
    createTargetMachine := fun _ _ _ _ _ _ _ => some 0
    genReflectionIr := fun m _ _ _ => m
    optimizePasses := fun _ m => m
    writeToMemoryBuffer := fun _ _ _ => Except.ok [7, 9]
    createTempFileResult := Except.ok ()
    writeFile := fun b => Except.ok b.length
    addObject := fun _ => none
    buildSharedObject := fun _ => none
    linkerFinalizeResult := none }

/-- Like `envAllOk` but the backend does not recognize the triple. -/
def envBadTriple : Env :=
  { envAllOk with fromTriple := fun _ => Except.error "bad triple" }

/-- Like `envAllOk` but the system linker fails to build the shared
object. -/
def envLinkFail : Env :=
  { envAllOk with buildSharedObject := fun _ => some "ld returned 1" }

/-- Like `envAllOk` but the temporary-file write is partial: it reports one
byte written (a behaviour `std::io::Write::write` permits). -/
def envPartialWrite : Env :=
  { envAllOk with writeFile := fun _ => Except.ok 1 }

/-- A concrete module builder for `dbFix`'s file. -/
def bFix : ModuleBuilder :=
  { fileId := 0, llvmTarget := 0, targetMachine := 0
    assemblyModule := createModule "foo/bar.src" }

/-- A concrete starting observable state. -/
def stFix : CompState := { moduleSlot := none, tempFiles := [] }

/-! ## Emitter lemmas -/

theorem internStrings_spec (name : String) : ∀ (ss : List String) (m : Module),
    (internStrings m ss name).2.name = m.name ∧
    (internStrings m ss name).2.globals =
      m.globals ++ ss.map (fun s => strGlobal s name) ∧
    (internStrings m ss name).1 =
      (List.range' m.globals.length ss.length).map Ptr.global := by
  intro ss
  induction ss with
  | nil => intro m; simp [internStrings]
  | cons s rest ih =>
    intro m
    obtain ⟨ihn, ihg, ihp⟩ :=
      ih { m with globals := m.globals ++ [strGlobal s name] }
    simp only [internStrings, intern_string, gen_global, strGlobal] at ihn ihg ihp ⊢
    refine ⟨ihn, ?_, ?_⟩
    · rw [ihg]; simp
    · rw [ihp]; simp [List.range'_succ]

/-- C9: `gen_global` adds exactly one global to the module — with private
linkage, marked constant, with the global unnamed-address attribute, and
initialized to the given value — and returns the handle (index) of exactly
that global; nothing else about the module changes. -/
theorem gen_global_adds_one_private_constant_global
    (m : Module) (value : Value) (name : String) :
    (gen_global m value name).2.globals =
      m.globals ++
        [{ name := name
           linkage := LinkageKind.privateLinkage
           isConstant := true
           unnamedAddr := UnnamedAddr.globalAddr
           initValue := value }] ∧
    (gen_global m value name).1 = m.globals.length ∧
    (gen_global m value name).2.globals[(gen_global m value name).1]? =
      some
        { name := name
          linkage := LinkageKind.privateLinkage
          isConstant := true
          unnamedAddr := UnnamedAddr.globalAddr
          initValue := value } ∧
    (gen_global m value name).2.name = m.name := by
  refine ⟨rfl, rfl, ?_, rfl⟩
  simp [gen_global]

/-- C8: `intern_string` deduplicates nothing — two successive calls with the
same string content (and any symbol names) each add a fresh global at a
fresh position, holding a null-terminated copy of the string, and the two
returned pointers are distinct. -/
theorem intern_string_no_dedup (m : Module) (s n1 n2 : String) :
    (intern_string m s n1).1 = Ptr.global m.globals.length ∧
    (intern_string (intern_string m s n1).2 s n2).1 =
      Ptr.global (m.globals.length + 1) ∧
    (intern_string m s n1).1 ≠ (intern_string (intern_string m s n1).2 s n2).1 ∧
    (intern_string (intern_string m s n1).2 s n2).2.globals =
      m.globals ++ [strGlobal s n1, strGlobal s n2] := by
  refine ⟨rfl, ?_, ?_, ?_⟩
  · simp [intern_string, gen_global]
  · simp [intern_string, gen_global]
  · simp [intern_string, gen_global, strGlobal]

/-- C2: each array builder returns a typed constant null and adds no global
when its input sequence is empty, and on a non-empty sequence allocates a
global holding the array and returns a pointer to that global. -/
theorem array_builders_empty_null_nonempty_alloc
    (m : Module) (name : String) (ty : StructTy) (s : String) (ss : List String)
    (p : Ptr) (ps : List Ptr) (i : Nat) (is : List Nat) :
    gen_string_array m [] name = (Ptr.null (LLVMType.ptrConst strType), m) ∧
    gen_struct_ptr_array m ty [] name =
      (Ptr.null (LLVMType.ptrConst (LLVMType.ptrConst (LLVMType.structTy ty))), m) ∧
    gen_u16_array m [] = (Ptr.null (LLVMType.ptrConst LLVMType.i16), m) ∧
    ((gen_string_array m (s :: ss) name).1 =
        Ptr.global (m.globals.length + (s :: ss).length) ∧
      (gen_string_array m (s :: ss) name).2.globals =
        m.globals ++ (s :: ss).map (fun x => strGlobal x name) ++
          [{ name := ""
             linkage := LinkageKind.privateLinkage
             isConstant := true
             unnamedAddr := UnnamedAddr.globalAddr
             initValue := Value.ptrArray strType
               ((List.range' m.globals.length (s :: ss).length).map Ptr.global) }]) ∧
    gen_struct_ptr_array m ty (p :: ps) name =
      (Ptr.global m.globals.length,
        { m with
            globals := m.globals ++
              [{ name := name
                 linkage := LinkageKind.privateLinkage
                 isConstant := true
                 unnamedAddr := UnnamedAddr.globalAddr
                 initValue := Value.ptrArray
                   (LLVMType.ptrConst (LLVMType.structTy ty)) (p :: ps) }] }) ∧
    gen_u16_array m (i :: is) =
      (Ptr.global m.globals.length,
        { m with
            globals := m.globals ++
              [{ name := ""
                 linkage := LinkageKind.privateLinkage
                 isConstant := true
                 unnamedAddr := UnnamedAddr.globalAddr
                 initValue := Value.i16Array ((i :: is).map (fun x => x % 65536)) }] }) := by
  obtain ⟨hn, hg, hp⟩ := internStrings_spec name (s :: ss) m
  refine ⟨rfl, rfl, rfl, ⟨?_, ?_⟩, rfl, rfl⟩
  · simp only [gen_string_array, gen_global]
    simp [hg]
  · simp only [gen_string_array, gen_global]
    simp [hg, hp, hn]

/-! ## Path lemmas -/

theorem splitLastDot_eq_none {l : List Char} (h : ∀ c ∈ l, c ≠ '.') :
    splitLastDot l = none := by
  induction l with
  | nil => rfl
  | cons c cs ih =>
    have hc : c ≠ '.' := h c (List.mem_cons_self c cs)
    have hcs : splitLastDot cs = none :=
      ih (fun x hx => h x (List.mem_cons_of_mem c hx))
    simp [splitLastDot, hcs, hc]

theorem splitLastDot_append {a : List Char} (h : ∀ c ∈ a, c ≠ '.') :
    ∀ b, splitLastDot (b ++ '.' :: a) = some (b, a) := by
  intro b
  induction b with
  | nil => simp [splitLastDot, splitLastDot_eq_none h]
  | cons c cs ih => simp [splitLastDot, ih]

theorem fileStem_exists {l : List Char} (h : l ≠ []) :
    ∃ s, fileStemL l = some s ∧ s ≠ [] := by
  unfold fileStemL splitFileAtDot
  by_cases hdd : l = ['.', '.']
  · exact ⟨l, by simp [hdd], h⟩
  · rw [if_neg hdd]
    cases hsd : splitLastDot l with
    | none => exact ⟨l, by simp, h⟩
    | some ba =>
      obtain ⟨b, a⟩ := ba
      by_cases hb : b = []
      · exact ⟨l, by simp [hb], h⟩
      · exact ⟨b, by simp [hb], hb⟩

theorem withExtension_keeps_stem {name ext : List Char} (h0 : name ≠ [])
    (h1 : name ≠ ['.']) (h2 : name ≠ ['.', '.'])
    (he : ext ≠ []) (hd : ∀ c ∈ ext, c ≠ '.') :
    ∃ stem, fileStemL name = some stem ∧ stem ≠ [] ∧
      withExtensionL name ext = stem ++ '.' :: ext ∧
      fileStemL (withExtensionL name ext) = some stem ∧
      extensionL (withExtensionL name ext) = some ext := by
  obtain ⟨stem, hs, hne⟩ := fileStem_exists h0
  have hwe : withExtensionL name ext = stem ++ '.' :: ext := by
    unfold withExtensionL
    simp [h0, h1, h2, hs, he]
  have hlen1 : 1 ≤ stem.length := List.length_pos.mpr hne
  have hlen2 : 1 ≤ ext.length := List.length_pos.mpr he
  have hne2 : stem ++ '.' :: ext ≠ ['.', '.'] := by
    intro hcontra
    have hl := congrArg List.length hcontra
    simp [List.length_append] at hl
    omega
  have hsd : splitLastDot (stem ++ '.' :: ext) = some (stem, ext) :=
    splitLastDot_append hd stem
  have hsf : splitFileAtDot (stem ++ '.' :: ext) = (some stem, some ext) := by
    unfold splitFileAtDot
    rw [if_neg hne2, hsd]
    simp [hne]
  refine ⟨stem, hs, hne, hwe, ?_, ?_⟩
  · rw [hwe]; unfold fileStemL; rw [hsf]; rfl
  · rw [hwe]; unfold extensionL; rw [hsf]; rfl

theorem assembly_output_path_eq_none_iff (db : Db) (fileId : FileId)
    (outDir : Option SysPath) :
    assembly_output_path db fileId outDir = none ↔
      (db.fileRelativePath fileId).fileName = none := by
  unfold assembly_output_path
  cases h : (db.fileRelativePath fileId).fileName with
  | none => simp [h]
  | some fn => simp [h]

/-- C1: `assembly_output_path` keeps the relative path's base file name
(its stem), replaces the extension with the fixed "munlib" artifact
extension, places the renamed file name under the output directory when one
is supplied (discarding the original directory component) and returns just
the renamed file name otherwise; it is a pure, deterministic function of
the file's relative path and the output directory. -/
theorem assembly_output_path_correct (db : Db) (fileId : FileId)
    (outDir : Option SysPath) (fn : String)
    (h : (db.fileRelativePath fileId).fileName = some fn) :
    ∃ out, assembly_output_path db fileId outDir = some out ∧
      out.components.getLast? = some (withExtensionS fn "munlib") ∧
      fileStemL (withExtensionS fn "munlib").data = fileStemL fn.data ∧
      extensionL (withExtensionS fn "munlib").data = some "munlib".data ∧
      (outDir = none →
        out = { absolute := false, components := [withExtensionS fn "munlib"] }) ∧
      (∀ d, outDir = some d →
        out = { absolute := d.absolute
                components := d.components ++ [withExtensionS fn "munlib"] }) ∧
      (∀ (db2 : Db) (fid2 : FileId),
        db2.fileRelativePath fid2 = db.fileRelativePath fileId →
        assembly_output_path db2 fid2 outDir =
          assembly_output_path db fileId outDir) := by
  have hfn : fn ≠ "" ∧ fn ≠ "." ∧ fn ≠ ".." := by
    unfold RelPath.fileName at h
    split at h
    · exact absurd h (by simp)
    · split at h
      · exact absurd h (by simp)
      · cases h
        tauto
  have d0 : fn.data ≠ [] := by
    intro hc; exact hfn.1 (String.ext (hc.trans (by decide)))
  have d1 : fn.data ≠ ['.'] := by
    intro hc; exact hfn.2.1 (String.ext (hc.trans (by decide)))
  have d2 : fn.data ≠ ['.', '.'] := by
    intro hc; exact hfn.2.2 (String.ext (hc.trans (by decide)))
  have hm1 : ("munlib".data : List Char) ≠ [] := by decide
  have hm2 : ∀ c ∈ ("munlib".data : List Char), c ≠ '.' := by decide
  obtain ⟨stem, hs, hsne, hwe, hstem, hext⟩ :=
    withExtension_keeps_stem d0 d1 d2 hm1 hm2
  have hdata : (withExtensionS fn "munlib").data =
      withExtensionL fn.data "munlib".data := rfl
  refine ⟨(match outDir with
    | some d => d.join (withExtensionS fn "munlib")
    | none => { absolute := false
                components := [withExtensionS fn "munlib"] }), ?_, ?_, ?_, ?_, ?_, ?_, ?_⟩
  · simp only [assembly_output_path, h]
  · cases outDir with
    | none => simp
    | some d => simp [SysPath.join]
  · rw [hdata, hstem, hs]
  · rw [hdata, hext]
  · intro hod; subst hod; rfl
  · intro d hod; subst hod; rfl
  · intro db2 fid2 heq
    unfold assembly_output_path
    rw [heq]

theorem assembly_output_path_correct_witness :
    RelPath.fileName ["foo", "bar.src"] = some "bar.src" ∧
    ∃ out, assembly_output_path dbFix 0 none = some out ∧
      out.components.getLast? = some "bar.munlib" := by
  refine ⟨by decide, ?_⟩
  obtain ⟨out, h1, h2, -⟩ :=
    assembly_output_path_correct dbFix 0 none "bar.src" (by decide)
  refine ⟨out, h1, ?_⟩
  rw [h2]
  decide

/-- C10: `assembly_output_path` is total only when the file's relative path
has a file-name component: its `unwrap` panics (modelled as `none`) exactly
when `file_name` is absent — for example on the empty relative path — and
`finalize`, once it reaches the output-path computation, panics rather than
returning an error value in that case. -/
theorem assembly_output_path_panics_iff_no_file_name :
    (∀ (db : Db) (fileId : FileId) (outDir : Option SysPath),
      assembly_output_path db fileId outDir = none ↔
        (db.fileRelativePath fileId).fileName = none) ∧
    (∀ (env : Env) (db : Db) (b : ModuleBuilder) (st : CompState)
        (outDir : Option SysPath) (obj : List Nat) (n : Nat),
      env.writeToMemoryBuffer b.targetMachine (optimizedModule env db b)
          FileType.object = Except.ok obj →
      env.createTempFileResult = Except.ok () →
      env.writeFile obj = Except.ok n →
      env.addObject st.tempFiles.length = none →
      (db.fileRelativePath b.fileId).fileName = none →
      (ModuleBuilder.finalize env db b st outDir).1 = Outcome.panicked) := by
  refine ⟨assembly_output_path_eq_none_iff, ?_⟩
  intro env db b st outDir obj n h1 h2 h3 h4 h5
  have hap : assembly_output_path db b.fileId outDir = none :=
    (assembly_output_path_eq_none_iff db b.fileId outDir).mpr h5
  simp only [ModuleBuilder.finalize, optimizedModule] at h1 ⊢
  simp only [h1, h2, h3, h4, hap]

theorem assembly_output_path_panics_witness :
    assembly_output_path dbEmptyPath 0 none = none ∧
    (ModuleBuilder.finalize envAllOk dbEmptyPath bFix stFix none).1 =
      Outcome.panicked := by
  have h := assembly_output_path_panics_iff_no_file_name
  exact ⟨(h.1 dbEmptyPath 0 none).mpr (by decide),
    h.2 envAllOk dbEmptyPath bFix stFix none [7, 9] 2 rfl rfl rfl rfl (by decide)⟩

/-! ## Construction claims -/

/-- C3: `ModuleBuilder::new` fails with `UnknownTargetTriple` exactly when
the backend does not recognize the database's target triple string (the
error carrying the backend's message), fails with
`CouldNotCreateTargetMachine` exactly when the triple resolves but no
target machine can be constructed for it, and produces no other error
kind. -/
theorem module_builder_new_error_kinds (env : Env) (db : Db) (st : CompState)
    (fid : FileId) :
    (∀ e, (ModuleBuilder.new env db st fid).1 =
        Except.error (CodeGenerationError.unknownTargetTriple e) ↔
      env.fromTriple db.target.llvmTarget = Except.error e) ∧
    ((ModuleBuilder.new env db st fid).1 =
        Except.error CodeGenerationError.couldNotCreateTargetMachine ↔
      ∃ t, env.fromTriple db.target.llvmTarget = Except.ok t ∧
        env.createTargetMachine t db.target.llvmTarget db.target.cpu
          db.target.features db.optimizationLvl RelocMode.pic
          CodeModel.default = none) ∧
    (∀ err, (ModuleBuilder.new env db st fid).1 = Except.error err →
      (∃ e, err = CodeGenerationError.unknownTargetTriple e) ∨
        err = CodeGenerationError.couldNotCreateTargetMachine) := by
  rcases h1 : env.fromTriple db.target.llvmTarget with e | t
  · refine ⟨?_, ?_, ?_⟩
    · intro e'
      simp [ModuleBuilder.new, h1]
    · simp [ModuleBuilder.new, h1]
    · intro err herr
      simp [ModuleBuilder.new, h1] at herr
      exact Or.inl ⟨e, herr.symm⟩
  · rcases h2 : env.createTargetMachine t db.target.llvmTarget db.target.cpu
        db.target.features db.optimizationLvl RelocMode.pic CodeModel.default
        with _ | tm
    · refine ⟨?_, ?_, ?_⟩
      · intro e'
        simp [ModuleBuilder.new, h1, h2]
      · simp [ModuleBuilder.new, h1, h2]
      · intro err herr
        simp [ModuleBuilder.new, h1, h2] at herr
        exact Or.inr herr.symm
    · refine ⟨?_, ?_, ?_⟩
      · intro e'
        simp [ModuleBuilder.new, h1, h2]
      · simp [ModuleBuilder.new, h1, h2]
      · intro err herr
        simp [ModuleBuilder.new, h1, h2] at herr

theorem module_builder_new_error_kinds_witness :
    (ModuleBuilder.new envBadTriple dbFix stFix 0).1 =
      Except.error (CodeGenerationError.unknownTargetTriple "bad triple") :=
  ((module_builder_new_error_kinds envBadTriple dbFix stFix 0).1 "bad triple").mpr rfl

/-- C7: when `ModuleBuilder::new` fails, the observable state is exactly as
before the call: the database's module slot is untouched (`set_module` is
only reached after both fallible steps) and no temporary file has been
created. -/
theorem module_builder_new_failure_no_state_change (env : Env) (db : Db)
    (st : CompState) (fid : FileId) (err : CodeGenerationError)
    (h : (ModuleBuilder.new env db st fid).1 = Except.error err) :
    (ModuleBuilder.new env db st fid).2 = st ∧
    (ModuleBuilder.new env db st fid).2.moduleSlot = st.moduleSlot ∧
    (ModuleBuilder.new env db st fid).2.tempFiles = st.tempFiles := by
  have hst : (ModuleBuilder.new env db st fid).2 = st := by
    unfold ModuleBuilder.new at h ⊢
    rcases h1 : env.fromTriple db.target.llvmTarget with e | t
    · simp [h1]
    · rcases h2 : env.createTargetMachine t db.target.llvmTarget db.target.cpu
          db.target.features db.optimizationLvl RelocMode.pic CodeModel.default
          with _ | tm
      · simp [h1, h2]
      · simp [h1, h2] at h
  exact ⟨hst, by rw [hst], by rw [hst]⟩

theorem module_builder_new_failure_no_state_change_witness :
    (ModuleBuilder.new envBadTriple dbFix stFix 0).2 = stFix ∧
    (ModuleBuilder.new envBadTriple dbFix stFix 0).2.moduleSlot = none :=
  ⟨(module_builder_new_failure_no_state_change envBadTriple dbFix stFix 0
      (CodeGenerationError.unknownTargetTriple "bad triple") rfl).1,
    by
      rw [(module_builder_new_failure_no_state_change envBadTriple dbFix stFix 0
        (CodeGenerationError.unknownTargetTriple "bad triple") rfl).2.1]
      rfl⟩

/-! ## Finalization claims -/

/-- C5: every run of `finalize` performs its steps in the fixed order —
fetch the lowered IR, run the reflection generator on the live module, run
the optimizer, emit the object — and everything that can follow is object
persistence or linking: after the optimizer runs, no event that adds
structure to the module (reflection generation or another optimization)
ever occurs again. -/
theorem finalize_strict_step_order (env : Env) (db : Db) (b : ModuleBuilder)
    (st : CompState) (outDir : Option SysPath) :
    ∃ rest, (ModuleBuilder.finalize env db b st outDir).2.2 =
      [Event.fetchIR, Event.genReflectionIr, Event.optimizeModule,
        Event.emitObject] ++ rest ∧
      ∀ e ∈ rest, e = Event.createTempFile ∨ e = Event.writeTempFile ∨
        e = Event.linkerCreate ∨ e = Event.linkerAddObject ∨
        e = Event.linkerBuildSharedObject ∨ e = Event.linkerFinalize := by
  simp only [ModuleBuilder.finalize]
  repeat' split
  all_goals exact ⟨_, rfl, by decide⟩

theorem finalize_strict_step_order_witness :
    ∃ rest, (ModuleBuilder.finalize envAllOk dbFix bFix stFix none).2.2 =
      [Event.fetchIR, Event.genReflectionIr, Event.optimizeModule,
        Event.emitObject] ++ rest ∧
      ∀ e ∈ rest, e = Event.createTempFile ∨ e = Event.writeTempFile ∨
        e = Event.linkerCreate ∨ e = Event.linkerAddObject ∨
        e = Event.linkerBuildSharedObject ∨ e = Event.linkerFinalize :=
  finalize_strict_step_order envAllOk dbFix bFix stFix none

/-- C4 counterexample: a run in which every step up to linking succeeds but
`build_shared_object` fails reaches the linking step (the build event is in
the trace) and returns its error, yet the linker's `finalize` is never
invoked — the `?` on `build_shared_object` returns before
`linker.finalize()` runs. -/
theorem finalize_skips_linker_finalize_on_build_error :
    (ModuleBuilder.finalize envLinkFail dbFix bFix stFix none).1 =
      Outcome.err (CodeGenerationError.linkerError "ld returned 1") ∧
    Event.linkerBuildSharedObject ∈
      (ModuleBuilder.finalize envLinkFail dbFix bFix stFix none).2.2 ∧
    Event.linkerFinalize ∉
      (ModuleBuilder.finalize envLinkFail dbFix bFix stFix none).2.2 := by
  refine ⟨by decide, by decide, by decide⟩

/-- C4 amended: the linker's `finalize` (release) operation is invoked
exactly on the runs in which object emission, temporary-file creation and
write, `add_object`, the output-path computation and `build_shared_object`
all succeed; on any earlier failure — in particular when
`build_shared_object` returns an error — `finalize` exits without invoking
the linker's release operation. -/
theorem finalize_invokes_linker_finalize_iff (env : Env) (db : Db)
    (b : ModuleBuilder) (st : CompState) (outDir : Option SysPath) :
    Event.linkerFinalize ∈ (ModuleBuilder.finalize env db b st outDir).2.2 ↔
      ∃ obj n p,
        env.writeToMemoryBuffer b.targetMachine (optimizedModule env db b)
          FileType.object = Except.ok obj ∧
        env.createTempFileResult = Except.ok () ∧
        env.writeFile obj = Except.ok n ∧
        env.addObject st.tempFiles.length = none ∧
        assembly_output_path db b.fileId outDir = some p ∧
        env.buildSharedObject p = none := by
  simp only [ModuleBuilder.finalize, optimizedModule]
  repeat' split
  all_goals simp_all

theorem finalize_invokes_linker_finalize_iff_witness :
    Event.linkerFinalize ∈
      (ModuleBuilder.finalize envAllOk dbFix bFix stFix none).2.2 :=
  (finalize_invokes_linker_finalize_iff envAllOk dbFix bFix stFix none).mpr
    ⟨[7, 9], 2, { absolute := false, components := ["bar.munlib"] },
      rfl, rfl, rfl, rfl, by decide, rfl⟩

/-- C6: at this input the backend accepts emission (the in-memory buffer is
`[7, 9]`), the temporary file is created and the write reports no error,
and the run succeeds — yet the write was partial (one byte), so the
temporary file holds only the strict prefix `[7]` of the buffer: the single
unchecked `write` call does not persist the entire buffer. -/
theorem finalize_partial_write_loses_buffer_suffix :
    envPartialWrite.writeToMemoryBuffer bFix.targetMachine
      (optimizedModule envPartialWrite dbFix bFix) FileType.object =
      Except.ok [7, 9] ∧
    envPartialWrite.writeFile [7, 9] = Except.ok 1 ∧
    (ModuleBuilder.finalize envPartialWrite dbFix bFix stFix none).1 =
      Outcome.ok { absolute := false, components := ["bar.munlib"] } ∧
    (ModuleBuilder.finalize envPartialWrite dbFix bFix stFix none).2.1.tempFiles =
      [[7]] ∧
    ([7] : List Nat) ≠ [7, 9] := by
  refine ⟨rfl, rfl, by decide, by decide, by decide⟩

end Mun
